import Mathlib

/-
Verification of the Ask Planet Detroit meeting/comment-period pipeline and
its frontend components.

The repository ships the frontend components (App, CommentPeriodsCard,
OrganizationMap) as source; those are embedded directly from the code.
The scraper pipeline itself (adapters, normalizer, dedup/upsert gateway,
orchestrator in scrapers/*.py) is documented in MAINTENANCE.md and the
scrapers README but its code is not part of this snapshot, so those
definitions are modelled from the spec, as marked in their doc comments.
-/

namespace AskPD

/-- A timezone-aware timestamp, modelled as calendar fields plus a UTC offset
in minutes (e.g. Eastern Standard Time is -300). -/
structure DateTime where
  year : Nat
  month : Nat
  day : Nat
  hour : Nat
  minute : Nat
  tzOffsetMinutes : Int
deriving DecidableEq, Repr

/-- Modelled from the spec: the canonical Meeting record stored in the
meetings table (scrapers README, Database Schema section).  The status field
is derived at read time from start_datetime and is not stored by the
pipeline, so it is not a field here. -/
structure Meeting where
  source : String
  source_id : String
  agency : String
  title : String
  start_datetime : DateTime
  location_city : Option String
  latitude : Option ℚ
  longitude : Option ℚ
  is_hybrid : Bool
  accepts_public_comment : Bool
  public_comment_url : Option String
  details_url : String
  issue_tags : List String
deriving DecidableEq, Repr

/-- The composite natural key used by the dedup/upsert gateway. -/
def rowKey (m : Meeting) : String × String := (m.source, m.source_id)

/-- Boolean test that a row carries a given natural key. -/
def hasKey (k : String × String) (m : Meeting) : Bool := decide (rowKey m = k)

/-- Modelled from the spec: the unique constraint on (source, source_id)
required by the scrapers README; a table satisfies it when no two rows share
the natural key. -/
def keysUnique (t : List Meeting) : Prop := (t.map rowKey).Nodup

/-- Modelled from the spec: the result of one upsert, insert vs. update. -/
inductive UpsertResult where
  | inserted
  | updated
deriving DecidableEq, Repr

/-- Modelled from the spec: the table after an upsert keyed on
(source, source_id): rows carrying the record's key are overwritten in place
when one exists, otherwise the record is appended. -/
def upsertTable (r : Meeting) (t : List Meeting) : List Meeting :=
  if t.any (hasKey (rowKey r)) = true then
    t.map (fun row => if rowKey row = rowKey r then r else row)
  else
    t ++ [r]

/-- Modelled from the spec: which branch the upsert took. -/
def upsertResult (r : Meeting) (t : List Meeting) : UpsertResult :=
  if t.any (hasKey (rowKey r)) = true then UpsertResult.updated
  else UpsertResult.inserted

/-- Modelled from the spec: the dedup/upsert gateway.  It is a total
function, so it raises no error on any record/table pair. -/
def upsert (r : Meeting) (t : List Meeting) : UpsertResult × List Meeting :=
  (upsertResult r t, upsertTable r t)

theorem upsertTable_pos (r : Meeting) (t : List Meeting)
    (h : t.any (hasKey (rowKey r)) = true) :
    upsertTable r t = t.map (fun row => if rowKey row = rowKey r then r else row) := by
  unfold upsertTable
  rw [if_pos h]

theorem upsertResult_pos (r : Meeting) (t : List Meeting)
    (h : t.any (hasKey (rowKey r)) = true) :
    upsertResult r t = UpsertResult.updated := by
  unfold upsertResult
  rw [if_pos h]

theorem countP_key_replace (r : Meeting) (t : List Meeting) :
    ((t.map (fun row => if rowKey row = rowKey r then r else row)).countP
      (hasKey (rowKey r))) = t.countP (hasKey (rowKey r)) := by
  induction t with
  | nil => rfl
  | cons a t ih =>
    simp only [List.map_cons, List.countP_cons, ih]
    by_cases h : rowKey a = rowKey r
    · simp [h, hasKey]
    · simp [h, hasKey]

theorem countP_key_of_unique (k : String × String) (t : List Meeting)
    (hu : keysUnique t) (ha : t.any (hasKey k) = true) :
    t.countP (hasKey k) = 1 := by
  induction t with
  | nil => simp at ha
  | cons a t ih =>
    simp only [keysUnique, List.map_cons, List.nodup_cons] at hu
    rw [List.countP_cons]
    by_cases h : rowKey a = k
    · have h0 : t.countP (hasKey k) = 0 := by
        rw [List.countP_eq_zero]
        intro m hm hpm
        have hmk : rowKey m = k := of_decide_eq_true hpm
        apply hu.1
        rw [List.mem_map]
        refine ⟨m, hm, ?_⟩
        rw [hmk, h]
      simp [h0, hasKey, h]
    · have hka : hasKey k a = false := by simp [hasKey, h]
      have ha' : t.any (hasKey k) = true := by
        rw [List.any_cons, hka, Bool.false_or] at ha
        exact ha
      rw [ih hu.2 ha', hka]
      simp

theorem upsertTable_countP_key (r : Meeting) (t : List Meeting)
    (hu : keysUnique t) :
    (upsertTable r t).countP (hasKey (rowKey r)) = 1 := by
  by_cases h : t.any (hasKey (rowKey r)) = true
  · rw [upsertTable_pos r t h, countP_key_replace]
    exact countP_key_of_unique (rowKey r) t hu h
  · have e : upsertTable r t = t ++ [r] := by
      unfold upsertTable
      rw [if_neg h]
    have h0 : t.countP (hasKey (rowKey r)) = 0 := by
      rw [List.countP_eq_zero]
      intro m hm hpm
      exact h (List.any_eq_true.mpr ⟨m, hm, hpm⟩)
    rw [e, List.countP_append, h0]
    simp [hasKey, List.countP_cons]

/-- C1: upserting the same normalized record twice leaves exactly one row for
its (source, source_id) key, the second call adds no row (length unchanged),
and the second call reports an in-place update; upsert is a total function,
so no error is raised. -/
theorem c1_upsert_idempotent (r : Meeting) (t : List Meeting)
    (hu : keysUnique t) :
    ((upsert r ((upsert r t).2)).2).countP (hasKey (rowKey r)) = 1 ∧
    ((upsert r ((upsert r t).2)).2).length = ((upsert r t).2).length ∧
    (upsert r ((upsert r t).2)).1 = UpsertResult.updated := by
  show (upsertTable r (upsertTable r t)).countP (hasKey (rowKey r)) = 1 ∧
      (upsertTable r (upsertTable r t)).length = (upsertTable r t).length ∧
      upsertResult r (upsertTable r t) = UpsertResult.updated
  have h1 : (upsertTable r t).countP (hasKey (rowKey r)) = 1 :=
    upsertTable_countP_key r t hu
  have hany : (upsertTable r t).any (hasKey (rowKey r)) = true := by
    by_contra hc
    have h0 : (upsertTable r t).countP (hasKey (rowKey r)) = 0 := by
      rw [List.countP_eq_zero]
      intro m hm hpm
      exact hc (List.any_eq_true.mpr ⟨m, hm, hpm⟩)
    rw [h1] at h0
    exact one_ne_zero h0
  have e2 := upsertTable_pos r (upsertTable r t) hany
  refine ⟨?_, ?_, ?_⟩
  · rw [e2, countP_key_replace, h1]
  · rw [e2, List.length_map]
  · exact upsertResult_pos r (upsertTable r t) hany

/-- The MPSC headquarters latitude, from the scrapers README. -/
def mpscHqLatitude : ℚ := 42.7325

/-- The MPSC headquarters longitude, from the scrapers README. -/
def mpscHqLongitude : ℚ := -84.6358

/-- The static issue tags of the MPSC source, from the scrapers README. -/
def mpscIssueTags : List String := ["dte_energy", "utilities", "energy_policy"]

/-- A concrete meeting record used as a witness input. -/
def sampleMeeting : Meeting :=
  { source := "mpsc"
    source_id := "mpsc_2026-1-15"
    agency := "MPSC"
    title := "Commission Meeting"
    start_datetime :=
      { year := 2026, month := 1, day := 15, hour := 13, minute := 30
        tzOffsetMinutes := -300 }
    location_city := some "Lansing"
    latitude := some mpscHqLatitude
    longitude := some mpscHqLongitude
    is_hybrid := true
    accepts_public_comment := true
    public_comment_url := none
    details_url := "https://www.michigan.gov/mpsc"
    issue_tags := mpscIssueTags }

/-- Witness for C1 at a concrete record and the empty table. -/
theorem c1_upsert_idempotent_witness :
    keysUnique ([] : List Meeting) ∧
    ((upsert sampleMeeting ((upsert sampleMeeting ([] : List Meeting)).2)).2).countP
      (hasKey (rowKey sampleMeeting)) = 1 ∧
    ((upsert sampleMeeting ((upsert sampleMeeting ([] : List Meeting)).2)).2).length
      = ((upsert sampleMeeting ([] : List Meeting)).2).length :=
  ⟨List.nodup_nil,
   (c1_upsert_idempotent sampleMeeting [] List.nodup_nil).1,
   (c1_upsert_idempotent sampleMeeting [] List.nodup_nil).2.1⟩

/-- Modelled from the spec: a raw item as fetched from a source, split into
the source-native identifying fields the normalizer may key on (a
vendor-assigned id when one exists, else date + body + agenda item) and
volatile fields that can differ between two fetches of the same real-world
meeting. -/
structure RawItem where
  vendor_id : Option String
  date : String
  body : String
  agenda_item : String
  description : String
  fetched_at : Int
deriving DecidableEq, Repr

/-- Modelled from the spec: the stable source identifier, preferring the
vendor-assigned id and falling back to a composite of date + body + agenda
item.  A plain function of the item: there is no randomness source. -/
def deriveSourceId (item : RawItem) : String :=
  match item.vendor_id with
  | some vid => vid
  | none => item.date ++ "_" ++ item.body ++ "_" ++ item.agenda_item

/-- Modelled from the spec: the canonical output of the normalizer for a
single-destination source, carrying the source key and the derived
source_id. -/
structure NormalizedRecord where
  source : String
  source_id : String
  title : String
deriving DecidableEq, Repr

/-- Modelled from the spec: normalize maps a raw item into the canonical
schema and assigns source_id deterministically via deriveSourceId. -/
def normalize (sourceKey : String) (item : RawItem) : NormalizedRecord :=
  { source := sourceKey
    source_id := deriveSourceId item
    title := item.agenda_item }

/-- C2: normalize derives source_id as a deterministic function of the
source-native identifying fields alone; two raw items agreeing on those
fields (in particular, the same item fetched twice, whatever its volatile
fields) get the same source_id. -/
theorem c2_source_id_deterministic (sourceKey : String) (i j : RawItem)
    (hv : i.vendor_id = j.vendor_id) (hd : i.date = j.date)
    (hb : i.body = j.body) (ha : i.agenda_item = j.agenda_item) :
    (normalize sourceKey i).source_id = (normalize sourceKey j).source_id := by
  simp only [normalize, deriveSourceId, hv, hd, hb, ha]

/-- The source key of the MPSC adapter. -/
def mpscKey : String := "mpsc"

/-- A raw item as seen on a first fetch. -/
def rawFirstFetch : RawItem :=
  { vendor_id := none
    date := "2026-01-15"
    body := "Commission"
    agenda_item := "Case U-21297"
    description := "first fetch"
    fetched_at := 100 }

/-- The same real-world item on a second fetch: identical source-native
fields, different volatile fields. -/
def rawSecondFetch : RawItem :=
  { rawFirstFetch with description := "second fetch", fetched_at := 200 }

/-- Witness for C2: the two fetches of the same item normalize to the same
source_id. -/
theorem c2_source_id_deterministic_witness :
    (normalize mpscKey rawFirstFetch).source_id
      = (normalize mpscKey rawSecondFetch).source_id :=
  c2_source_id_deterministic mpscKey rawFirstFetch rawSecondFetch rfl rfl rfl rfl

/-- Modelled from the spec: the per-item discriminator of the dual-destination
EGLE feed (a category/type marker on each entry). -/
inductive EntryKind where
  | meetingEntry
  | proceedingEntry
deriving DecidableEq, Repr

/-- Modelled from the spec: one entry of the EGLE (Trumba RSS) feed. -/
structure FeedEntry where
  kind : EntryKind
  entryId : String
  title : String
deriving DecidableEq, Repr

/-- The two destination tables of the pipeline. -/
inductive DestTable where
  | meetingTable
  | commentPeriodTable
deriving DecidableEq, Repr

/-- Modelled from the spec: the normalizer inspects the per-item
discriminator of the dual-destination source to choose the destination
table. -/
def routeFeedEntry (e : FeedEntry) : DestTable :=
  match e.kind with
  | EntryKind.proceedingEntry => DestTable.commentPeriodTable
  | EntryKind.meetingEntry => DestTable.meetingTable

/-- C3: a proceeding-type entry of the EGLE feed is routed to the
CommentPeriod table and a meeting-type entry to the Meeting table. -/
theorem c3_dual_destination_routing (e : FeedEntry) :
    (e.kind = EntryKind.proceedingEntry →
      routeFeedEntry e = DestTable.commentPeriodTable) ∧
    (e.kind = EntryKind.meetingEntry →
      routeFeedEntry e = DestTable.meetingTable) := by
  constructor <;> intro h <;> simp [routeFeedEntry, h]

/-- A meeting-type entry of the EGLE feed. -/
def egleMeetingEntry : FeedEntry :=
  { kind := EntryKind.meetingEntry
    entryId := "trumba-1"
    title := "EGLE Public Hearing" }

/-- A proceeding-type entry of the EGLE feed. -/
def egleProceedingEntry : FeedEntry :=
  { kind := EntryKind.proceedingEntry
    entryId := "trumba-2"
    title := "Comment Period on Permit 123" }

/-- Witness for C3 at the two concrete entries. -/
theorem c3_dual_destination_routing_witness :
    routeFeedEntry egleProceedingEntry = DestTable.commentPeriodTable ∧
    routeFeedEntry egleMeetingEntry = DestTable.meetingTable :=
  ⟨(c3_dual_destination_routing egleProceedingEntry).1 rfl,
   (c3_dual_destination_routing egleMeetingEntry).2 rfl⟩

/-- Modelled from the spec: the outcome of one adapter's run, either
completion with a record count (possibly zero: a soft warning) or a hard
transport failure (fetch error, timeout). -/
inductive AdapterOutcome where
  | success (count : Nat)
  | transportFailure (message : String)
deriving DecidableEq, Repr

/-- Whether an outcome is a hard transport failure. -/
def isTransportFailure : AdapterOutcome → Bool
  | AdapterOutcome.transportFailure _ => true
  | AdapterOutcome.success _ => false

/-- One per-source entry of the run summary. -/
structure SourceReport where
  sourceName : String
  outcome : AdapterOutcome
deriving DecidableEq, Repr

/-- Modelled from the spec: the run summary aggregated by the orchestrator. -/
structure RunSummary where
  reports : List SourceReport
deriving DecidableEq, Repr

/-- Modelled from the spec: the orchestrator runs every adapter independently
and collects one report per adapter, regardless of the other adapters'
outcomes. -/
def runAll (adapters : List (String × AdapterOutcome)) : RunSummary :=
  { reports := adapters.map (fun a => { sourceName := a.1, outcome := a.2 }) }

/-- Number of hard transport failures in a run summary. -/
def failureCount (s : RunSummary) : Nat :=
  s.reports.countP (fun rep => isTransportFailure rep.outcome)

/-- Number of adapters that ran to completion (success counts, including
zero-result warnings). -/
def completedCount (s : RunSummary) : Nat :=
  s.reports.countP (fun rep => !isTransportFailure rep.outcome)

/-- Modelled from the spec: process exit status, nonzero exactly when some
adapter suffered a hard transport failure. -/
def exitCode (s : RunSummary) : Nat :=
  if failureCount s = 0 then 0 else 1

theorem countP_map_comp {α β : Type} (f : α → β) (p : β → Bool) (l : List α) :
    (l.map f).countP p = l.countP (fun a => p (f a)) := by
  induction l with
  | nil => rfl
  | cons a l ih => simp [List.countP_cons, ih]

theorem countP_not_length {α : Type} (p : α → Bool) (l : List α) :
    l.countP (fun a => !p a) + l.countP p = l.length := by
  induction l with
  | nil => rfl
  | cons a l ih =>
    rw [List.countP_cons, List.countP_cons, List.length_cons]
    cases hp : p a <;> simp [hp] <;> omega

/-- C4: the orchestrator yields one report per adapter (no adapter is
skipped because another failed), every succeeding adapter's count appears in
the summary, a run with exactly one transport failure reports one failure,
all other adapters as completed, and exits nonzero, and a run with no
transport failure (zero-result warnings included) exits zero. -/
theorem c4_orchestrator_failure_isolation
    (adapters : List (String × AdapterOutcome)) :
    (runAll adapters).reports.length = adapters.length ∧
    (∀ name c, (name, AdapterOutcome.success c) ∈ adapters →
      ({ sourceName := name, outcome := AdapterOutcome.success c } : SourceReport)
        ∈ (runAll adapters).reports) ∧
    (adapters.countP (fun a => isTransportFailure a.2) = 1 →
      failureCount (runAll adapters) = 1 ∧
      completedCount (runAll adapters) + 1 = adapters.length ∧
      exitCode (runAll adapters) = 1) ∧
    (adapters.countP (fun a => isTransportFailure a.2) = 0 →
      exitCode (runAll adapters) = 0) := by
  have hfail : failureCount (runAll adapters)
      = adapters.countP (fun a => isTransportFailure a.2) := by
    unfold failureCount runAll
    rw [countP_map_comp]
  have hlen : completedCount (runAll adapters) + failureCount (runAll adapters)
      = adapters.length := by
    unfold completedCount failureCount runAll
    rw [countP_map_comp, countP_map_comp]
    exact countP_not_length (fun a => isTransportFailure a.2) adapters
  refine ⟨?_, ?_, ?_, ?_⟩
  · unfold runAll
    simp
  · intro name c hmem
    have := List.mem_map_of_mem
      (fun a : String × AdapterOutcome =>
        ({ sourceName := a.1, outcome := a.2 } : SourceReport)) hmem
    exact this
  · intro h
    refine ⟨by rw [hfail, h], by omega, ?_⟩
    unfold exitCode
    rw [hfail, h]
    simp
  · intro h
    unfold exitCode
    rw [hfail, h]
    simp

/-- A concrete run: four adapters, one of which times out. -/
def sampleRunAdapters : List (String × AdapterOutcome) :=
  [(mpscKey, AdapterOutcome.success 2),
   ("glwa", AdapterOutcome.transportFailure "fetch timeout"),
   ("detroit", AdapterOutcome.success 30),
   ("egle", AdapterOutcome.success 12)]

/-- A concrete run with no failure, one adapter returning zero records. -/
def sampleQuietAdapters : List (String × AdapterOutcome) :=
  [(mpscKey, AdapterOutcome.success 0),
   ("detroit", AdapterOutcome.success 25)]

/-- Witness for C4 at the two concrete runs. -/
theorem c4_orchestrator_failure_isolation_witness :
    failureCount (runAll sampleRunAdapters) = 1 ∧
    completedCount (runAll sampleRunAdapters) + 1 = sampleRunAdapters.length ∧
    exitCode (runAll sampleRunAdapters) = 1 ∧
    exitCode (runAll sampleQuietAdapters) = 0 := by
  have h1 := (c4_orchestrator_failure_isolation sampleRunAdapters).2.2.1
    (by decide)
  have h2 := (c4_orchestrator_failure_isolation sampleQuietAdapters).2.2.2
    (by decide)
  exact ⟨h1.1, h1.2.1, h1.2.2, h2⟩

/-- Modelled from the spec: a candidate item before validation; any required
field (notably start_datetime) may be missing. -/
structure CandidateItem where
  title : Option String
  start_datetime : Option DateTime
deriving DecidableEq, Repr

/-- A successfully parsed candidate record. -/
structure ParsedRecord where
  title : String
  start_datetime : DateTime
deriving DecidableEq, Repr

/-- Modelled from the spec: parse returns a candidate record, or none for an
unparseable item (e.g. one missing start_datetime); a total function, not a
raising one. -/
def parse (item : CandidateItem) : Option ParsedRecord :=
  match item.start_datetime with
  | none => none
  | some dt =>
    match item.title with
    | none => none
    | some t => some { title := t, start_datetime := dt }

/-- Modelled from the spec: the adapter applies parse to every fetched item,
collecting the parsed records and counting the skipped ones; the run walks
the whole list, so a malformed item never aborts it. -/
def runAdapterItems : List CandidateItem → List ParsedRecord × Nat
  | [] => ([], 0)
  | item :: rest =>
    match parse item with
    | some r => (r :: (runAdapterItems rest).1, (runAdapterItems rest).2)
    | none => ((runAdapterItems rest).1, (runAdapterItems rest).2 + 1)

theorem runAdapterItems_characterization (items : List CandidateItem) :
    (runAdapterItems items).1 = items.filterMap parse ∧
    (runAdapterItems items).2
      = items.countP (fun i => (parse i).isNone) := by
  induction items with
  | nil => exact ⟨rfl, rfl⟩
  | cons item rest ih =>
    cases hp : parse item with
    | none =>
      refine ⟨?_, ?_⟩
      · simp [runAdapterItems, hp, List.filterMap_cons, ih.1]
      · simp [runAdapterItems, hp, List.countP_cons, ih.2]
    | some r =>
      refine ⟨?_, ?_⟩
      · simp [runAdapterItems, hp, List.filterMap_cons, ih.1]
      · simp [runAdapterItems, hp, List.countP_cons, ih.2]

theorem runAdapterItems_total_length (items : List CandidateItem) :
    (runAdapterItems items).1.length + (runAdapterItems items).2
      = items.length := by
  induction items with
  | nil => rfl
  | cons item rest ih =>
    cases hp : parse item with
    | none =>
      simp only [runAdapterItems, hp, List.length_cons]
      omega
    | some r =>
      simp only [runAdapterItems, hp, List.length_cons]
      omega

/-- C5: an item missing start_datetime parses to none; the adapter run keeps
exactly the parseable items, counts every skipped item, and processes the
whole input list (parsed + skipped = fetched), so a single malformed item
never aborts the run. -/
theorem c5_parse_skip (item : CandidateItem) (items : List CandidateItem) :
    (item.start_datetime = none → parse item = none) ∧
    (runAdapterItems items).1 = items.filterMap parse ∧
    (runAdapterItems items).2 = items.countP (fun i => (parse i).isNone) ∧
    (runAdapterItems items).1.length + (runAdapterItems items).2
      = items.length := by
  refine ⟨?_, (runAdapterItems_characterization items).1,
    (runAdapterItems_characterization items).2,
    runAdapterItems_total_length items⟩
  intro h
  simp [parse, h]

/-- A malformed item: no start_datetime. -/
def malformedItem : CandidateItem :=
  { title := some "Board Meeting", start_datetime := none }

/-- A well-formed item. -/
def wellFormedItem : CandidateItem :=
  { title := some "Board Meeting"
    start_datetime := some
      { year := 2026, month := 3, day := 4, hour := 10, minute := 0
        tzOffsetMinutes := -300 } }

/-- Witness for C5: the malformed item is skipped, counted, and the run over
a mixed batch still consumes both items. -/
theorem c5_parse_skip_witness :
    parse malformedItem = none ∧
    (runAdapterItems [wellFormedItem, malformedItem]).1.length
      + (runAdapterItems [wellFormedItem, malformedItem]).2 = 2 :=
  ⟨(c5_parse_skip malformedItem [wellFormedItem, malformedItem]).1 rfl,
   (c5_parse_skip malformedItem [wellFormedItem, malformedItem]).2.2.2⟩

/-- Modelled from the spec: one LD+JSON structured-data block embedded in the
MPSC events page, located and parsed directly by the MPSC adapter. -/
structure LdJsonBlock where
  name : String
  startDate : DateTime
  eventUrl : String
deriving DecidableEq, Repr

/-- The date part of a timestamp, used as the stable (date-based) key of the
MPSC source. -/
def dateKey (d : DateTime) : String :=
  toString d.year ++ "-" ++ toString d.month ++ "-" ++ toString d.day

/-- Modelled from the spec: the MPSC adapter turns one structured-data block
into one Meeting, with source "mpsc", agency "MPSC", the static MPSC issue
tags, and the location fixed at the MPSC HQ coordinates. -/
def mpscParseBlock (b : LdJsonBlock) : Meeting :=
  { source := mpscKey
    source_id := "mpsc_" ++ dateKey b.startDate
    agency := "MPSC"
    title := b.name
    start_datetime := b.startDate
    location_city := some "Lansing"
    latitude := some mpscHqLatitude
    longitude := some mpscHqLongitude
    is_hybrid := true
    accepts_public_comment := true
    public_comment_url := none
    details_url := b.eventUrl
    issue_tags := mpscIssueTags }

/-- Modelled from the spec: the MPSC adapter run over the structured-data
blocks found on the fixture page. -/
def mpscScrape (blocks : List LdJsonBlock) : List Meeting :=
  blocks.map mpscParseBlock

/-- The fixture page's single structured-data block: a meeting on
Jan 15, 2026, 1:30pm Eastern. -/
def mpscFixtureBlock : LdJsonBlock :=
  { name := "Commission Meeting"
    startDate :=
      { year := 2026, month := 1, day := 15, hour := 13, minute := 30
        tzOffsetMinutes := -300 }
    eventUrl := "https://www.michigan.gov/mpsc/commission/meetings" }

/-- C6: on the fixture page with exactly one structured-data block for
Jan 15, 2026, 1:30pm the MPSC adapter produces exactly one Meeting, with
source "mpsc", agency "MPSC", issue tags dte_energy/utilities/energy_policy,
and latitude/longitude fixed at the MPSC HQ coordinates 42.7325, -84.6358. -/
theorem c6_mpsc_fixture :
    (mpscScrape [mpscFixtureBlock]).length = 1 ∧
    mpscScrape [mpscFixtureBlock] = [mpscParseBlock mpscFixtureBlock] ∧
    (mpscParseBlock mpscFixtureBlock).source = "mpsc" ∧
    (mpscParseBlock mpscFixtureBlock).agency = "MPSC" ∧
    (mpscParseBlock mpscFixtureBlock).issue_tags
      = ["dte_energy", "utilities", "energy_policy"] ∧
    (mpscParseBlock mpscFixtureBlock).latitude = some mpscHqLatitude ∧
    (mpscParseBlock mpscFixtureBlock).longitude = some mpscHqLongitude ∧
    mpscHqLatitude = (42.7325 : ℚ) ∧
    mpscHqLongitude = (-84.6358 : ℚ) ∧
    (mpscParseBlock mpscFixtureBlock).start_datetime
      = { year := 2026, month := 1, day := 15, hour := 13, minute := 30
          tzOffsetMinutes := -300 } :=
  ⟨rfl, rfl, rfl, rfl, rfl, rfl, rfl, rfl, rfl, rfl⟩

/-- Modelled from the spec: the derived field of a CommentPeriod,
end_date minus today clamped non-negative (dates as epoch days). -/
def daysRemaining (endDate today : Int) : Int := max (endDate - today) 0

/-- Modelled from the spec: a stored CommentPeriod record; days_remaining is
derived at read time, not stored. -/
structure CommentPeriod where
  source : String
  source_id : String
  title : String
  agency : String
  end_date : Int
  submit_comment_url : Option String
deriving DecidableEq, Repr

/-- Modelled from the spec: the days_remaining value served for a stored
record, always computed from its end_date. -/
def servedDaysRemaining (p : CommentPeriod) (today : Int) : Option Int :=
  some (daysRemaining p.end_date today)

/-- C7: the served days_remaining of every stored CommentPeriod equals
end_date minus today clamped non-negative; it is never absent and never
negative. -/
theorem c7_days_remaining (p : CommentPeriod) (today : Int) :
    servedDaysRemaining p today = some (daysRemaining p.end_date today) ∧
    (servedDaysRemaining p today).isSome = true ∧
    daysRemaining p.end_date today = max (p.end_date - today) 0 ∧
    0 ≤ daysRemaining p.end_date today :=
  ⟨rfl, rfl, rfl, le_max_right _ _⟩

/-- An organization as passed to OrganizationMap; latitude/longitude are
numbers or null in the source, modelled as Option ℚ. -/
structure Org where
  id : Nat
  name : String
  latitude : Option ℚ
  longitude : Option ℚ
  impact_partner : Bool
  planet_champion : Bool
  mission_statement_text : Option String
  city : Option String
  url : Option String
deriving DecidableEq, Repr

/-- JavaScript truthiness of a number-or-null coordinate, as tested by the
filter org.latitude && org.longitude: null and 0 are falsy, every other
number is truthy. -/
def numTruthy : Option ℚ → Bool
  | none => false
  | some v => decide (v ≠ 0)

/-- The geocodedOrgs list of OrganizationMap:
organizations.filter(org => org.latitude && org.longitude). -/
def geocodedOrgs (orgs : List Org) : List Org :=
  orgs.filter (fun org => numTruthy org.latitude && numTruthy org.longitude)

/-- What OrganizationMap renders: either the "No Geocoded Organizations"
placeholder, or the map carrying one Marker per listed organization (each at
its latitude/longitude position). -/
inductive MapRender where
  | placeholder
  | mapWithMarkers (markers : List Org)
deriving DecidableEq, Repr

/-- OrganizationMap: if geocodedOrgs is empty it returns the placeholder and
no map; otherwise the map with geocodedOrgs.map(org => Marker). -/
def organizationMap (orgs : List Org) : MapRender :=
  if (geocodedOrgs orgs).length = 0 then MapRender.placeholder
  else MapRender.mapWithMarkers (geocodedOrgs orgs)

/-- The organizations for which a Marker element is rendered. -/
def renderedMarkers (orgs : List Org) : List Org :=
  match organizationMap orgs with
  | MapRender.placeholder => []
  | MapRender.mapWithMarkers ms => ms

theorem renderedMarkers_eq_geocoded (orgs : List Org) :
    renderedMarkers orgs = geocodedOrgs orgs := by
  unfold renderedMarkers organizationMap
  by_cases h : (geocodedOrgs orgs).length = 0
  · rw [if_pos h]
    exact (List.length_eq_zero.mp h).symm
  · rw [if_neg h]

/-- An organization with both coordinates set, latitude being the number 0:
a counterexample input for C8. -/
def orgAtEquator : Org :=
  { id := 1
    name := "Equatorial Research Station"
    latitude := some 0
    longitude := some 5
    impact_partner := false
    planet_champion := false
    mission_statement_text := none
    city := none
    url := none }

/-- Counterexample to C8 as stated: this organization has both latitude and
longitude set, yet OrganizationMap renders no marker for it and falls back
to the placeholder, because the JS filter tests truthiness and the number 0
is falsy. -/
theorem c8_markers_counterexample :
    orgAtEquator.latitude.isSome = true ∧
    orgAtEquator.longitude.isSome = true ∧
    renderedMarkers [orgAtEquator] = [] ∧
    organizationMap [orgAtEquator] = MapRender.placeholder := by
  refine ⟨rfl, rfl, ?_, ?_⟩ <;> decide

/-- C8 amended: a marker is rendered exactly for the organizations whose
latitude and longitude are both present and nonzero (JS-truthy), and the
placeholder (with no map) is rendered exactly when no organization in the
list passes that test. -/
theorem c8_markers_amended (orgs : List Org) (org : Org) :
    (org ∈ renderedMarkers orgs ↔
      org ∈ orgs ∧ numTruthy org.latitude = true ∧ numTruthy org.longitude = true) ∧
    (organizationMap orgs = MapRender.placeholder ↔ geocodedOrgs orgs = []) := by
  constructor
  · rw [renderedMarkers_eq_geocoded]
    simp [geocodedOrgs, List.mem_filter, Bool.and_eq_true]
  · constructor
    · intro h
      by_cases hl : (geocodedOrgs orgs).length = 0
      · exact List.length_eq_zero.mp hl
      · unfold organizationMap at h
        rw [if_neg hl] at h
        exact absurd h (by simp)
    · intro h
      unfold organizationMap
      rw [h]
      rfl

/-- A geocoded organization with nonzero coordinates. -/
def orgInDetroit : Org :=
  { id := 2
    name := "Detroit River Coalition"
    latitude := some (42.3314 : ℚ)
    longitude := some (-83.0458 : ℚ)
    impact_partner := true
    planet_champion := false
    mission_statement_text := none
    city := some "Detroit"
    url := none }

/-- Witness for the amended C8 at a concrete list: the truthy-geocoded
organization gets a marker and the zero-latitude one does not. -/
theorem c8_markers_amended_witness :
    orgInDetroit ∈ renderedMarkers [orgAtEquator, orgInDetroit] ∧
    ¬ orgAtEquator ∈ renderedMarkers [orgAtEquator, orgInDetroit] := by
  constructor
  · refine (c8_markers_amended [orgAtEquator, orgInDetroit] orgInDetroit).1.mpr
      ⟨by simp, ?_, ?_⟩
    · norm_num [numTruthy, orgInDetroit]
    · norm_num [numTruthy, orgInDetroit]
  · intro hmem
    have h := (c8_markers_amended [orgAtEquator, orgInDetroit] orgAtEquator).1.mp hmem
    have h0 : numTruthy orgAtEquator.latitude = false := by
      norm_num [numTruthy, orgAtEquator]
    rw [h0] at h
    exact absurd h.2.1 (by simp)

/-- A comment period as rendered by CommentPeriodsCard; days_remaining may
arrive null from the API, hence Option. -/
structure PeriodView where
  title : String
  agency : String
  end_date : String
  days_remaining : Option Int
  submit_comment_url : Option String
deriving DecidableEq, Repr

/-- The render condition of the deadline-warning line in CommentPeriodsCard:
period.days_remaining !== null && period.days_remaining <= 14. -/
def showDeadlineWarning (p : PeriodView) : Bool :=
  match p.days_remaining with
  | none => false
  | some d => decide (d ≤ 14)

/-- Whether the rendered warning carries the urgent red style: the warning is
rendered and its class ternary days_remaining <= 7 picks text-red-600
(otherwise text-pd-orange). -/
def deadlineWarningIsRed (p : PeriodView) : Bool :=
  showDeadlineWarning p &&
    (match p.days_remaining with
     | none => false
     | some d => decide (d ≤ 7))

/-- C9: the deadline warning of CommentPeriodsCard is displayed iff
days_remaining is non-null and at most 14, and it is styled red iff
days_remaining is non-null and at most 7. -/
theorem c9_deadline_warning (p : PeriodView) :
    (showDeadlineWarning p = true ↔
      ∃ d, p.days_remaining = some d ∧ d ≤ 14) ∧
    (deadlineWarningIsRed p = true ↔
      ∃ d, p.days_remaining = some d ∧ d ≤ 7) := by
  cases hp : p.days_remaining with
  | none => simp [showDeadlineWarning, deadlineWarningIsRed, hp]
  | some d =>
    constructor
    · simp [showDeadlineWarning, hp]
    · simp [deadlineWarningIsRed, showDeadlineWarning, hp]
      try omega

/-- The /api/search response shape consumed by App. -/
structure SearchResponse where
  answer : Option String
  sources : List String
  unique_articles : Nat
  search_time_ms : Nat
deriving DecidableEq, Repr

/-- The three search-related state variables of App. -/
structure SearchState where
  searchResults : Option SearchResponse
  isSearching : Bool
  searchError : Option String
deriving DecidableEq, Repr

/-- The error message set by handleSearch's catch branch. -/
def searchFailedMessage : String := "Failed to search. Please try again."

/-- handleSearch from App, modelled as a function from the pre-call state and
the outcome of the awaited searchArticles call to the post-call state.  The
source first sets isSearching true and clears searchError and searchResults,
then on success stores the results, on rejection stores the error message,
and in the finally block sets isSearching false; the model gives the
resulting state directly. -/
def handleSearch (_s : SearchState) (outcome : Except String SearchResponse) :
    SearchState :=
  match outcome with
  | Except.ok results =>
      { searchResults := some results, isSearching := false, searchError := none }
  | Except.error _ =>
      { searchResults := none, isSearching := false,
        searchError := some searchFailedMessage }

/-- C10: after handleSearch completes, a failed search leaves searchResults
null and sets searchError, a successful one stores the response and leaves
searchError null, and isSearching is false in both outcomes. -/
theorem c10_handleSearch_states (s : SearchState)
    (outcome : Except String SearchResponse) :
    (∀ e, outcome = Except.error e →
      (handleSearch s outcome).searchResults = none ∧
      (handleSearch s outcome).searchError = some searchFailedMessage) ∧
    (∀ r, outcome = Except.ok r →
      (handleSearch s outcome).searchResults = some r ∧
      (handleSearch s outcome).searchError = none) ∧
    (handleSearch s outcome).isSearching = false := by
  cases outcome <;> simp [handleSearch]

/-- A concrete pre-call state with stale results from an earlier search. -/
def staleState : SearchState :=
  { searchResults := some
      { answer := some "Earlier answer", sources := [], unique_articles := 3
        search_time_ms := 120 }
    isSearching := false
    searchError := none }

/-- Witness for C10 at a concrete state and both concrete outcomes. -/
theorem c10_handleSearch_states_witness :
    (handleSearch staleState (Except.error "network down")).searchResults = none ∧
    (handleSearch staleState (Except.error "network down")).searchError
      = some searchFailedMessage ∧
    (handleSearch staleState (Except.error "network down")).isSearching = false :=
  ⟨((c10_handleSearch_states staleState (Except.error "network down")).1
      "network down" rfl).1,
   ((c10_handleSearch_states staleState (Except.error "network down")).1
      "network down" rfl).2,
   (c10_handleSearch_states staleState (Except.error "network down")).2.2⟩

end AskPD
